import Mathlib

/-!
Verification of the CSV-upload service (src/utils.py, src/database.py, src/main.py).

The development shallowly embeds the ingest pipeline and the record access
layer:

* `utf8Decode` models Python's strict UTF-8 decoding of the uploaded bytes.
* `parseGrid`, `classifyCol`, `mkCell` model `pandas.read_csv` at its default
  settings on the unquoted-CSV fragment: comma-separated fields, a header
  row, blank lines skipped, the default NA sentinel token set, per-column
  dtype inference (int64 / float64 / bool / object, the numeric converters
  skipping surrounding whitespace as `str_to_int64` and `xstrtod` do),
  rows with too many
  fields rejected, rows with too few fields padded with missing values.
  Numeric cells are kept as exact decimals (an idealisation of IEEE-754
  doubles that agrees with Python's shortest repr on short decimals, which
  is the only regime the theorems below evaluate); quoting, exponent-free
  scientific output, `inf` tokens and the index-column inference corner of
  pandas are outside the modelled fragment.
* `process_csv` composes decode, parse, dtype inference, `dropna` and the
  column-name `strip`, exactly in the order of `src/utils.py`.
* `DBState`, `insert_csv_data`, `fetch_records`, `update_record`,
  `delete_record`, `get_record_by_id` model `src/database.py` over an ideal
  storage engine: one table, replaced on each ingest, serial identities
  assigned 1..N in insertion order, SQL errors (undefined column, malformed
  statement, bad integer literal) modelled as the caught-and-soft results
  the source produces.  Filter column names are modelled as plain
  identifiers (the source interpolates them into SQL text).
-/

namespace CsvApp

/-! ### UTF-8 decoding (Python `bytes.decode("utf-8")`, strict) -/

/-- A continuation byte 0x80..0xBF. -/
def contB (b : Nat) : Bool := 0x80 ≤ b && b ≤ 0xBF

/-- Strict UTF-8 decoding of a byte sequence: rejects overlong encodings,
surrogates, code points above U+10FFFF and truncated sequences, as Python's
strict `utf-8` codec does. -/
def utf8Decode : List Nat → Option (List Char)
  | [] => some []
  | b0 :: t =>
    if b0 ≤ 0x7F then
      (utf8Decode t).map (fun cs => Char.ofNat b0 :: cs)
    else if 0xC2 ≤ b0 && b0 ≤ 0xDF then
      match t with
      | b1 :: t1 =>
        if contB b1 then
          (utf8Decode t1).map (fun cs =>
            Char.ofNat ((b0 - 0xC0) * 0x40 + (b1 - 0x80)) :: cs)
        else none
      | [] => none
    else if 0xE0 ≤ b0 && b0 ≤ 0xEF then
      match t with
      | b1 :: b2 :: t2 =>
        let lo1 := if b0 = 0xE0 then 0xA0 else 0x80
        let hi1 := if b0 = 0xED then 0x9F else 0xBF
        if (lo1 ≤ b1 && b1 ≤ hi1) && contB b2 then
          (utf8Decode t2).map (fun cs =>
            Char.ofNat ((b0 - 0xE0) * 0x1000 + (b1 - 0x80) * 0x40 + (b2 - 0x80)) :: cs)
        else none
      | _ => none
    else if 0xF0 ≤ b0 && b0 ≤ 0xF4 then
      match t with
      | b1 :: b2 :: b3 :: t3 =>
        let lo1 := if b0 = 0xF0 then 0x90 else 0x80
        let hi1 := if b0 = 0xF4 then 0x8F else 0xBF
        if (lo1 ≤ b1 && b1 ≤ hi1) && contB b2 && contB b3 then
          (utf8Decode t3).map (fun cs =>
            Char.ofNat ((b0 - 0xF0) * 0x40000 + (b1 - 0x80) * 0x1000 +
              (b2 - 0x80) * 0x40 + (b3 - 0x80)) :: cs)
        else none
      | _ => none
    else none

/-- Bytes of an ASCII string (test inputs are ASCII; each character is its
own byte). -/
def strBytes (s : String) : List Nat := s.data.map Char.toNat

/-! ### Tokens: pandas default NA sentinels and numeric/boolean literals -/

/-- The default `na_values` of `pandas.read_csv` (plus the empty field). -/
def naTokens : List String :=
  ["", "#N/A", "#N/A N/A", "#NA", "-1.#IND", "-1.#QNAN", "-NaN", "-nan",
   "1.#IND", "1.#QNAN", "<NA>", "N/A", "NA", "NULL", "NaN", "None",
   "n/a", "nan", "null"]

def isNaTok (s : String) : Bool := naTokens.contains s

/-- Optional sign; returns the sign and the remaining characters. -/
def splitSign : List Char → Int × List Char
  | '-' :: r => (-1, r)
  | '+' :: r => (1, r)
  | r => (1, r)

def digitsToNat (cs : List Char) : Nat :=
  cs.foldl (fun a c => a * 10 + (c.toNat - 48)) 0

/-- Strip leading and trailing whitespace characters; the pandas C
parser's numeric converters (`str_to_int64`, `xstrtod`) skip surrounding
whitespace before and after the number. -/
def trimWs (cs : List Char) : List Char :=
  ((cs.dropWhile Char.isWhitespace).reverse.dropWhile Char.isWhitespace).reverse

/-- A token the pandas C parser converts to int64 (`str_to_int64`):
surrounding whitespace skipped, optional sign, digits, value within the
int64 range (larger values fall through to float64). -/
def isIntTok (s : String) : Bool :=
  let p := splitSign (trimWs s.data)
  !p.2.isEmpty && p.2.all Char.isDigit &&
    (if p.1 = 1 then digitsToNat p.2 ≤ 2 ^ 63 - 1 else digitsToNat p.2 ≤ 2 ^ 63)

def intTokVal (s : String) : Int :=
  let p := splitSign (trimWs s.data)
  p.1 * digitsToNat p.2

/-- Exponent suffix of a float token: empty, or e/E then a signed integer. -/
def expOk : List Char → Bool
  | [] => true
  | c :: r =>
    (c = 'e' || c = 'E') &&
      (let p := splitSign r
       !p.2.isEmpty && p.2.all Char.isDigit)

/-- A decimal float token (`xstrtod`): surrounding whitespace skipped,
optional sign, digits with an optional point (at least one digit
overall), optional exponent. -/
def isFloatTok (s : String) : Bool :=
  let p := splitSign (trimWs s.data)
  let ip := p.2.takeWhile Char.isDigit
  let r1 := p.2.dropWhile Char.isDigit
  match r1 with
  | '.' :: r2 =>
    let fp := r2.takeWhile Char.isDigit
    let r3 := r2.dropWhile Char.isDigit
    (!ip.isEmpty || !fp.isEmpty) && expOk r3
  | r => !ip.isEmpty && expOk r

/-- Strip trailing zero fraction digits: `(m, k)` denotes `m / 10^k`. -/
def reduceFrac (m : Int) : Nat → Int × Nat
  | 0 => (m, 0)
  | k + 1 => if m % 10 = 0 then reduceFrac (m / 10) k else (m, k + 1)

/-- Exact decimal value of a float token (surrounding whitespace
skipped), normalised as `(m, k)` with value `m / 10^k` and `k` minimal. -/
def parseFloatTok (s : String) : Int × Nat :=
  let p := splitSign (trimWs s.data)
  let ip := p.2.takeWhile Char.isDigit
  let r1 := p.2.dropWhile Char.isDigit
  let fr :=
    match r1 with
    | '.' :: r2 => (r2.takeWhile Char.isDigit, r2.dropWhile Char.isDigit)
    | r => ([], r)
  let e : Int :=
    match fr.2 with
    | _ :: r =>
      let q := splitSign r
      q.1 * digitsToNat q.2
    | [] => 0
  let a : Int := p.1 * digitsToNat (ip ++ fr.1)
  let scale : Int := (fr.1.length : Int) - e
  if scale ≤ 0 then (a * 10 ^ (-scale).toNat, 0)
  else reduceFrac a scale.toNat

/-- Boolean tokens recognised by the pandas C parser. -/
def isBoolTok (s : String) : Bool :=
  s = "True" || s = "TRUE" || s = "False" || s = "FALSE"

def boolTokVal (s : String) : Bool := s = "True" || s = "TRUE"

/-! ### Cells, dtypes and rendering to stored text -/

/-- A parsed cell as pandas holds it after `read_csv`. -/
inductive Cell
  | na
  | intC (n : Int)
  | floatC (m : Int) (k : Nat)
  | boolC (b : Bool)
  | strC (s : String)
  deriving DecidableEq, Repr

def Cell.isNa : Cell → Bool
  | .na => true
  | _ => false

inductive Dtype
  | int64
  | float64
  | boolD
  | object
  deriving DecidableEq, Repr

/-- Per-column dtype inference of the pandas C parser: int64 when every
value is an in-range integer and none is missing; float64 when every value
is numeric (missing allowed); bool when every value is a boolean token;
otherwise object. -/
def classifyCol (toks : List String) : Dtype :=
  let nn := toks.filter (fun t => !isNaTok t)
  if nn.isEmpty then .float64
  else if nn.all isIntTok && !toks.any isNaTok then .int64
  else if nn.all (fun t => isIntTok t || isFloatTok t) then .float64
  else if nn.all isBoolTok then .boolD
  else .object

/-- The cell a token becomes in a column of the given dtype. -/
def mkCell (d : Dtype) (tok : String) : Cell :=
  if isNaTok tok then .na
  else
    match d with
    | .int64 => .intC (intTokVal tok)
    | .float64 =>
      let mk := parseFloatTok tok
      .floatC mk.1 mk.2
    | .boolD => .boolC (boolTokVal tok)
    | .object => .strC tok

/-- Decimal rendering of the exact value `m / 10^k` (`k` minimal), matching
Python's repr of the corresponding double on short decimals: integral
values render with a trailing `.0`. -/
def renderFloat (m : Int) (k : Nat) : String :=
  if k = 0 then toString m ++ ".0"
  else
    let ds := (toString m.natAbs).data
    let ds := if ds.length < k + 1 then
        List.replicate (k + 1 - ds.length) '0' ++ ds
      else ds
    let sgn := if m < 0 then "-" else ""
    sgn ++ String.mk (ds.take (ds.length - k)) ++ "." ++
      String.mk (ds.drop (ds.length - k))

/-- The text a cell becomes in the stored (all-text) table: `df.to_dict`
yields native Python values which the driver passes to text columns via
the storage engine's output conversion. -/
def renderCell : Cell → String
  | .na => ""
  | .intC n => toString n
  | .floatC m k => renderFloat m k
  | .boolC b => if b then "true" else "false"
  | .strC s => s

/-! ### Grid parsing (`pandas.read_csv` line/field structure) -/

inductive CsvErr
  | decodeError
  | parseError
  deriving DecidableEq, Repr

/-- Split a character list at every occurrence of a separator; like
`String.split`, the result always has one more group than separators. -/
def splitChars (sep : Char) : List Char → List (List Char)
  | [] => [[]]
  | c :: cs =>
    match splitChars sep cs with
    | [] => [[]]
    | g :: gs => if c = sep then [] :: g :: gs else (c :: g) :: gs

/-- Drop a trailing carriage return (universal newline handling). -/
def stripCR (l : List Char) : List Char :=
  match l.getLast? with
  | some '\r' => l.dropLast
  | _ => l

/-- Physical lines, with blank lines skipped (`skip_blank_lines=True`). -/
def rawLines (s : String) : List String :=
  ((splitChars '\n' s.data).map (fun l => String.mk (stripCR l))).filter
    (fun l => !(l = ""))

/-- Comma-separated fields of one line. -/
def fieldsOf (line : String) : List String :=
  (splitChars ',' line.data).map String.mk

/-- Pad a short row with missing trailing fields. -/
def padTo (n : Nat) (r : List String) : List String :=
  r ++ List.replicate (n - r.length) ""

/-- Header and data rows of the raw text.  Empty input (no non-blank line)
is `EmptyDataError`; a data row with more fields than the header is
`ParserError`; a short row is padded with missing values.  All returned
rows have exactly the header's length. -/
def parseGrid (s : String) : Except CsvErr (List String × List (List String)) :=
  match rawLines s with
  | [] => .error .parseError
  | h :: rest =>
    let hdr := fieldsOf h
    let rows := rest.map fieldsOf
    if rows.any (fun r => hdr.length < r.length) then .error .parseError
    else .ok (hdr, rows.map (padTo hdr.length))

/-! ### Frames (pandas DataFrames restricted to what the source uses) -/

structure Frame where
  cols : List String
  rows : List (List Cell)
  deriving DecidableEq, Repr

/-- Empty header fields become `Unnamed: i` (pandas positional naming). -/
def unnamedFix (raw : List String) : List String :=
  raw.mapIdx (fun i s => if s = "" then "Unnamed: " ++ toString i else s)

/-- Deduplicate repeated header names by suffixing `.k` (pandas
`mangle_dupe_cols`; the re-collision corner is outside the model). -/
def mangleGo (seen : List String) : List String → List String
  | [] => []
  | n :: rest =>
    let c := seen.count n
    (if c = 0 then n else n ++ "." ++ toString c) :: mangleGo (n :: seen) rest

def mangleDupes (raw : List String) : List String := mangleGo [] raw

/-- The dtypes `read_csv` infers, one per header position. -/
def colDtypes (n : Nat) (rows : List (List String)) : List Dtype :=
  (List.range n).map (fun i => classifyCol (rows.map (fun r => r.getD i "")))

/-- The DataFrame `read_csv` yields from the parsed grid: fixed-up header
names and per-column-typed cells. -/
def buildFrame (hdr : List String) (rows : List (List String)) : Frame :=
  Frame.mk (mangleDupes (unnamedFix hdr))
    (rows.map (fun r => List.zipWith mkCell (colDtypes hdr.length rows) r))

/-- `df.dropna()`: drop every row containing a missing cell. -/
def dropnaFrame (f : Frame) : Frame :=
  Frame.mk f.cols (f.rows.filter (fun r => !r.any Cell.isNa))

/-- Whitespace-stripping of a string (`str.strip()` on ASCII whitespace). -/
def strTrim (s : String) : String :=
  String.mk (trimWs s.data)

/-- `df.columns.str.strip()`. -/
def stripColsFrame (f : Frame) : Frame :=
  Frame.mk (f.cols.map strTrim) f.rows

/-- `process_csv` of `src/utils.py`: decode UTF-8, `pd.read_csv`, `dropna`,
strip column names.  Both failure stages raise (are surfaced as errors). -/
def process_csv (b : List Nat) : Except CsvErr Frame :=
  match utf8Decode b with
  | none => .error .decodeError
  | some cs =>
    match parseGrid (String.mk cs) with
    | .error e => .error e
    | .ok g => .ok (stripColsFrame (dropnaFrame (buildFrame g.1 g.2)))

/-! ### Table store and record access layer (`src/database.py`) -/

/-- The text fields of a stored record, keyed by source column name. -/
abbrev Fields := List (String × String)

/-- The one physical table: column names (the synthetic `id` column is
kept separately as the first component of each row) and rows in storage
order. -/
structure StoredTable where
  cols : List String
  rows : List (Int × Fields)
  deriving DecidableEq, Repr

/-- The database: the single table may or may not exist. -/
abbrev DBState := Option StoredTable

inductive ColType
  | integerT
  | textT
  deriving DecidableEq, Repr

/-- The column list `create_table_from_df` builds: an auto-increment
integer `id` column, then one `String` column per DataFrame column, in
order. -/
def createSchema (cols : List String) : List (String × ColType) :=
  ("id", ColType.integerT) :: cols.map (fun c => (c, ColType.textT))

/-- `create_table_from_df`: drop the table if present, recreate it empty
from the DataFrame's columns. -/
def create_table_from_df (f : Frame) (_s : DBState) : DBState :=
  some (StoredTable.mk f.cols [])

/-- One row of `df.to_dict("records")` rendered to stored text. -/
def renderRow (cols : List String) (r : List Cell) : Fields :=
  List.zipWith (fun c x => (c, renderCell x)) cols r

/-- `insert_csv_data`: recreate the table, then bulk-insert all rows; the
serial primary key assigns identities 1..N in insertion order. -/
def insert_csv_data (f : Frame) (s : DBState) : DBState :=
  match create_table_from_df f s with
  | none => none
  | some t =>
    some (StoredTable.mk t.cols
      (f.rows.enum.map (fun p => ((p.1 : Int) + 1, renderRow t.cols p.2))))

/-- Python truthiness of an optional string (`if column and value:`). -/
def truthy : Option String → Bool
  | none => false
  | some s => !(s = "")

/-- The storage engine's integer input conversion of a text literal
(`WHERE id = :value` with a text parameter): optional surrounding blanks,
optional sign, digits; anything else is a conversion error. -/
def sqlIntLit (v : String) : Option Int :=
  let p := splitSign (strTrim v).data
  if !p.2.isEmpty && p.2.all Char.isDigit then some (p.1 * digitsToNat p.2)
  else none

/-- `fetch_records`: empty list when the table is absent; unfiltered when
either parameter is falsy; filtering on `id` goes through integer
conversion of the value (conversion failure is caught, yielding `[]`);
filtering on an unknown column is an undefined-column error, caught,
yielding `[]`; otherwise exact text equality. -/
def fetch_records (c v : Option String) (s : DBState) : List (Int × Fields) :=
  match s with
  | none => []
  | some t =>
    if truthy c && truthy v then
      let cn := c.getD ""
      let vv := v.getD ""
      if cn = "id" then
        match sqlIntLit vv with
        | some n => t.rows.filter (fun r => r.1 = n)
        | none => []
      else if t.cols.contains cn then
        t.rows.filter (fun r => r.2.lookup cn = some vv)
      else []
    else t.rows

/-- Apply a SET clause to a record's text fields. -/
def applyUpd (upd : Fields) (fs : Fields) : Fields :=
  fs.map (fun p =>
    match upd.lookup p.1 with
    | some v => (p.1, v)
    | none => p)

/-- `update_record`: false when the table is absent; an empty mapping
yields the malformed statement `UPDATE .. SET  WHERE id = :id`, whose
error is caught (false, nothing changed); an unknown column in the SET
clause is likewise a caught error; otherwise the one row with the given
identity is updated (`SET id = :id` rebinds the id to itself, since the
parameter dictionary merge overwrites any `id` entry of the mapping with
`record_id`) and the result is `rowcount > 0`. -/
def update_record (rid : Int) (upd : Fields) (s : DBState) : Bool × DBState :=
  match s with
  | none => (false, none)
  | some t =>
    if upd.isEmpty then (false, some t)
    else if upd.all (fun p => p.1 = "id" || t.cols.contains p.1) then
      (t.rows.any (fun r => r.1 = rid),
       some (StoredTable.mk t.cols
         (t.rows.map (fun r => if r.1 = rid then (r.1, applyUpd upd r.2) else r))))
    else (false, some t)

/-- `delete_record`: false when the table is absent; otherwise remove the
row with the given identity and report `rowcount > 0`. -/
def delete_record (rid : Int) (s : DBState) : Bool × DBState :=
  match s with
  | none => (false, none)
  | some t =>
    (t.rows.any (fun r => r.1 = rid),
     some (StoredTable.mk t.cols (t.rows.filter (fun r => !(r.1 = rid)))))

/-- `get_record_by_id`: none when the table is absent or no row matches. -/
def get_record_by_id (rid : Int) (s : DBState) : Option (Int × Fields) :=
  match s with
  | none => none
  | some t => t.rows.find? (fun r => r.1 = rid)

/-- The `POST /upload/` path of `src/main.py`: `process_csv` then
`insert_csv_data`; a processing failure propagates (the router turns it
into a 500 response), otherwise the new state is committed. -/
def upload_csv (b : List Nat) (s : DBState) : Except CsvErr DBState :=
  match process_csv b with
  | .error e => .error e
  | .ok f => .ok (insert_csv_data f s)

/-! ### Helper lemmas -/

/-- A cell is missing exactly when its token is an NA sentinel, whatever
the column's dtype. -/
lemma mkCell_isNa (d : Dtype) (tok : String) : (mkCell d tok).isNa = isNaTok tok := by
  cases h : isNaTok tok <;> cases d <;> simp [mkCell, h, Cell.isNa]

/-- A parsed row has a missing cell exactly when some token is an NA
sentinel. -/
lemma zipWith_mkCell_any_na :
    ∀ (ds : List Dtype) (ts : List String), ds.length = ts.length →
      (List.zipWith mkCell ds ts).any Cell.isNa = ts.any isNaTok := by
  intro ds
  induction ds with
  | nil =>
    intro ts h
    cases ts with
    | nil => simp
    | cons t ts => simp at h
  | cons d ds ih =>
    intro ts h
    cases ts with
    | nil => simp at h
    | cons t ts =>
      simp only [List.zipWith, List.any_cons, mkCell_isNa]
      rw [ih ts (by simpa using h)]

lemma padTo_length {n : Nat} {r : List String} (h : r.length ≤ n) :
    (padTo n r).length = n := by
  simp only [padTo, List.length_append, List.length_replicate]
  omega

/-- Every data row returned by `parseGrid` has exactly the header's
length. -/
lemma parseGrid_row_length {s : String} {hdr : List String} {rows : List (List String)}
    (h : parseGrid s = .ok (hdr, rows)) :
    ∀ r ∈ rows, r.length = hdr.length := by
  unfold parseGrid at h
  cases hl : rawLines s with
  | nil => rw [hl] at h; exact absurd h (by simp)
  | cons a rest =>
    rw [hl] at h
    dsimp only at h
    split at h
    · exact absurd h (by simp)
    · rename_i hg
      simp only [Except.ok.injEq, Prod.mk.injEq] at h
      obtain ⟨hh, hr⟩ := h
      subst hh
      subst hr
      intro r hrm
      obtain ⟨r0, hr0, hpad⟩ := List.mem_map.mp hrm
      subst hpad
      apply padTo_length
      have hle : ¬ (fieldsOf a).length < r0.length := by
        intro hlt
        exact hg (List.any_eq_true.mpr ⟨r0, hr0, by simpa using hlt⟩)
      omega

lemma colDtypes_length (n : Nat) (rows : List (List String)) :
    (colDtypes n rows).length = n := by
  simp [colDtypes]

/-- `dropna` over the parsed cells keeps exactly the images of the token
rows that have no NA sentinel. -/
lemma filter_na_map_cells (ds : List Dtype) (rows : List (List String))
    (hlen : ∀ r ∈ rows, r.length = ds.length) :
    (rows.map (fun r => List.zipWith mkCell ds r)).filter (fun r => !r.any Cell.isNa)
      = (rows.filter (fun r => !r.any isNaTok)).map
          (fun r => List.zipWith mkCell ds r) := by
  rw [List.filter_map]
  congr 1
  apply List.filter_congr
  intro r hr
  simp only [Function.comp_apply]
  rw [zipWith_mkCell_any_na ds r (hlen r hr).symm]

/-- In an all-object frame a complete row's cells are its raw tokens. -/
lemma zipWith_object_str :
    ∀ (ds : List Dtype) (ts : List String), (∀ d ∈ ds, d = Dtype.object) →
      (ts.any isNaTok) = false → ds.length = ts.length →
      List.zipWith mkCell ds ts = ts.map Cell.strC := by
  intro ds
  induction ds with
  | nil =>
    intro ts _ _ h
    cases ts with
    | nil => simp
    | cons t ts => simp at h
  | cons d ds ih =>
    intro ts hobj hna h
    cases ts with
    | nil => simp at h
    | cons t ts =>
      simp only [List.any_cons, Bool.or_eq_false_iff] at hna
      have hd : d = Dtype.object := hobj d (by simp)
      simp only [List.zipWith, List.map_cons]
      have h1 : mkCell d t = Cell.strC t := by rw [hd]; simp [mkCell, hna.1]
      rw [h1, ih ts (fun x hx => hobj x (by simp [hx])) hna.2 (by simpa using h)]

/-- Rendering raw-token cells zips the column names with the tokens. -/
lemma renderRow_str :
    ∀ (cols : List String) (ts : List String),
      renderRow cols (ts.map Cell.strC) = cols.zip ts := by
  intro cols
  induction cols with
  | nil => intro ts; simp [renderRow]
  | cons c cols ih =>
    intro ts
    cases ts with
    | nil => simp [renderRow]
    | cons t ts =>
      simp only [renderRow, List.map_cons, List.zipWith, List.zip]
      have := ih ts
      simp only [renderRow] at this
      rw [this]
      simp [renderCell, List.zip]

/-- Unfiltered listing over a fresh ingest: one record per frame row, in
order, with identities 1..N. -/
lemma fetch_after_insert (f : Frame) (s : DBState) :
    fetch_records none none (insert_csv_data f s)
      = f.rows.enum.map (fun p => ((p.1 : Int) + 1, renderRow f.cols p.2)) := rfl

/-- What `process_csv` yields, stage by stage, once decoding and grid
parsing are fixed. -/
lemma process_csv_eq {b : List Nat} {cs : List Char} {hdr : List String}
    {rows : List (List String)}
    (hdec : utf8Decode b = some cs)
    (hgrid : parseGrid (String.mk cs) = .ok (hdr, rows)) :
    process_csv b = .ok (stripColsFrame (dropnaFrame (buildFrame hdr rows))) := by
  unfold process_csv
  rw [hdec]
  dsimp only
  rw [hgrid]

/-- The rows and columns of a successfully processed upload. -/
lemma process_frame_eq {b : List Nat} {cs : List Char} {hdr : List String}
    {rows : List (List String)} {f : Frame}
    (hdec : utf8Decode b = some cs)
    (hgrid : parseGrid (String.mk cs) = .ok (hdr, rows))
    (hok : process_csv b = .ok f) :
    f.cols = (mangleDupes (unnamedFix hdr)).map strTrim ∧
    f.rows = (rows.filter (fun r => !r.any isNaTok)).map
        (fun r => List.zipWith mkCell (colDtypes hdr.length rows) r) := by
  rw [process_csv_eq hdec hgrid] at hok
  have hf : f = stripColsFrame (dropnaFrame (buildFrame hdr rows)) := by
    cases hok; rfl
  subst hf
  constructor
  · rfl
  · simp only [stripColsFrame, dropnaFrame, buildFrame]
    apply filter_na_map_cells
    intro r hr
    rw [colDtypes_length]
    exact parseGrid_row_length hgrid r hr

/-- Under the primary-key invariant (no two rows share an identity), some
row matches the id exactly when exactly one row matches it. -/
lemma any_id_iff_countP_one {rows : List (Int × Fields)} {rid : Int}
    (h : (rows.map Prod.fst).Nodup) :
    (rows.any (fun r => r.1 = rid)) = true ↔
      rows.countP (fun r => r.1 = rid) = 1 := by
  have hcnt : rows.countP (fun r => decide (r.1 = rid))
      = (rows.map Prod.fst).count rid := by
    rw [List.count_eq_countP, List.countP_map]
    apply List.countP_congr
    intro a _
    by_cases ha : a.1 = rid <;> simp [ha, Function.comp]
  constructor
  · intro hany
    obtain ⟨r, hr, hid⟩ := List.any_eq_true.mp hany
    rw [hcnt]
    exact List.count_eq_one_of_mem h (List.mem_map.mpr ⟨r, hr, by simpa using hid⟩)
  · intro hone
    rw [hcnt] at hone
    have hmm : rid ∈ rows.map Prod.fst := List.count_pos_iff.mp (by omega)
    obtain ⟨r, hr, hfst⟩ := List.mem_map.mp hmm
    exact List.any_eq_true.mpr ⟨r, hr, by simpa using hfst⟩

/-- `update_record` on a non-empty mapping, unfolded. -/
lemma update_record_cons (rid : Int) (q : String × String) (ps : Fields)
    (t : StoredTable) :
    update_record rid (q :: ps) (some t) =
      if (q :: ps).all (fun p => p.1 = "id" || t.cols.contains p.1) then
        (t.rows.any (fun r => r.1 = rid),
         some (StoredTable.mk t.cols
           (t.rows.map (fun r =>
             if r.1 = rid then (r.1, applyUpd (q :: ps) r.2) else r))))
      else (false, some t) := rfl

/-! ### Claims -/

/-- C2: uploading CSV A and then CSV B leaves the table containing exactly
the rows of B — the second ingest recreates the table from B alone, with
identities 1..N over B's rows, independently of everything A stored. -/
theorem claim_C2 (fA fB : Frame) (sPre : DBState) :
    insert_csv_data fB (insert_csv_data fA sPre) =
      some (StoredTable.mk fB.cols
        (fB.rows.enum.map (fun p => ((p.1 : Int) + 1, renderRow fB.cols p.2)))) := rfl

/-- C7: on a missing table every data operation degrades to a no-op
result instead of raising: `fetch_records` returns `[]`,
`get_record_by_id` returns none, `update_record` and `delete_record`
return false and leave the state absent. -/
theorem claim_C7 (rid : Int) (c v : Option String) (upd : Fields) :
    fetch_records c v none = [] ∧
      get_record_by_id rid none = none ∧
      update_record rid upd none = (false, none) ∧
      delete_record rid none = (false, none) :=
  ⟨rfl, rfl, rfl, rfl⟩

/-- C10: an empty update mapping produces a malformed SQL statement whose
error is caught internally: `update_record` returns false and modifies no
stored record, whether or not the table exists. -/
theorem claim_C10 (rid : Int) (s : DBState) :
    (update_record rid [] s).1 = false ∧ (update_record rid [] s).2 = s := by
  cases s with
  | none => exact ⟨rfl, rfl⟩
  | some t => exact ⟨rfl, rfl⟩

/-- C9: the normalizer fails with the decode error exactly on invalid
UTF-8, fails with the parse error when the content has no header row
(empty or all-blank input), and both failures propagate through the
upload path instead of being softened. -/
theorem claim_C9 (b : List Nat) :
    (utf8Decode b = none →
      process_csv b = .error .decodeError ∧
        ∀ s, upload_csv b s = .error .decodeError) ∧
    (∀ cs, utf8Decode b = some cs → rawLines (String.mk cs) = [] →
      process_csv b = .error .parseError ∧
        ∀ s, upload_csv b s = .error .parseError) ∧
    (∀ e, process_csv b = .error e → ∀ s, upload_csv b s = .error e) := by
  refine ⟨?_, ?_, ?_⟩
  · intro hd
    have hp : process_csv b = .error .decodeError := by
      unfold process_csv; rw [hd]
    exact ⟨hp, fun s => by unfold upload_csv; rw [hp]⟩
  · intro cs hd hraw
    have hg : parseGrid (String.mk cs) = .error .parseError := by
      unfold parseGrid; rw [hraw]
    have hp : process_csv b = .error .parseError := by
      unfold process_csv; rw [hd]; dsimp only; rw [hg]
    exact ⟨hp, fun s => by unfold upload_csv; rw [hp]⟩
  · intro e hp s
    unfold upload_csv; rw [hp]

/-- Witness for C9: the lone byte 0xFF is invalid UTF-8 and yields the
decode error; empty input decodes but has no header row and yields the
parse error, which the upload path propagates. -/
theorem claim_C9_witness :
    (utf8Decode [0xFF] = none ∧ process_csv [0xFF] = .error .decodeError) ∧
    (utf8Decode (strBytes "") = some [] ∧ rawLines (String.mk []) = [] ∧
      process_csv (strBytes "") = .error .parseError ∧
      upload_csv (strBytes "") none = .error .parseError) :=
  ⟨⟨rfl, ((claim_C9 [0xFF]).1 rfl).1⟩,
   ⟨rfl, rfl, ((claim_C9 (strBytes "")).2.1 [] rfl rfl).1,
    ((claim_C9 (strBytes "")).2.1 [] rfl rfl).2 none⟩⟩

/-- C5 as stated is false: the source prepends the identity column `id`
unconditionally, and a CSV whose header contains `id` yields a normalized
table whose source columns already contain that name, so the identity
name is not distinct from every source column name. -/
theorem claim_C5_cex :
    process_csv (strBytes "id,v\n1,2") =
      .ok (Frame.mk ["id", "v"] [[Cell.intC 1, Cell.intC 2]]) ∧
    (createSchema ["id", "v"]).head? = some ("id", ColType.integerT) ∧
    "id" ∈ ["id", "v"] := by
  refine ⟨rfl, rfl, ?_⟩
  simp

/-- C5 amended: provided no source column is named `id`, the synthesized
schema is one text-typed column per source column in source order,
prefixed by the integer identity column, whose name is then distinct from
every source column name. -/
theorem claim_C5 (cols : List String) (h : "id" ∉ cols) :
    createSchema cols =
        ("id", ColType.integerT) :: cols.map (fun c => (c, ColType.textT)) ∧
      (createSchema cols).map Prod.fst = "id" :: cols ∧
      ∀ c ∈ cols, ¬ c = "id" := by
  refine ⟨rfl, ?_, ?_⟩
  · simp only [createSchema, List.map_cons, List.map_map]
    rw [show (Prod.fst ∘ fun c => (c, ColType.textT)) = id from rfl]
    simp
  · intro c hc he
    exact h (he ▸ hc)

/-- Witness for C5 at the column list `[name, x]`. -/
theorem claim_C5_witness :
    "id" ∉ ["name", "x"] ∧
      (createSchema ["name", "x"]).map Prod.fst = "id" :: ["name", "x"] :=
  ⟨by simp, (claim_C5 ["name", "x"] (by simp)).2.1⟩

/-- C4 as stated is false: with the empty string as filter value the
source's truthiness test `if column and value:` skips filtering entirely,
so a record whose `name` is `John` (not the requested empty value) is
returned. -/
theorem claim_C4_cex :
    fetch_records (some "name") (some "")
        (some (StoredTable.mk ["name"] [(1, [("name", "John")])]))
      = [(1, [("name", "John")])] ∧
    ¬ ("John" = "") := by
  exact ⟨rfl, by simp⟩

/-- C4 amended: provided the column and value strings are both non-empty
(otherwise the filter silently deactivates) and the column names a source
data column (the identity column is compared as an integer, not text),
filtering returns exactly the records whose text value in that column
equals the given value; an unknown column or an absent table yields the
empty sequence, not an error. -/
theorem claim_C4 (c v : String) (t : StoredTable)
    (hc : ¬ c = "") (hv : ¬ v = "") (hid : ¬ c = "id") :
    (c ∈ t.cols →
      fetch_records (some c) (some v) (some t) =
        t.rows.filter (fun r => r.2.lookup c = some v)) ∧
    (c ∉ t.cols → fetch_records (some c) (some v) (some t) = []) ∧
    fetch_records (some c) (some v) none = [] := by
  refine ⟨?_, ?_, rfl⟩
  · intro hmem
    unfold fetch_records
    simp [truthy, hc, hv, hid, List.contains, hmem]
  · intro hnm
    unfold fetch_records
    simp [truthy, hc, hv, hid, List.contains, hnm]

/-- C6: for a non-empty field mapping and a table whose identities are
unique (the primary key invariant), `update_record` returns true exactly
when the mapping's keys are all storable columns and exactly one record's
identity matches; a missing table yields false, not an error. -/
theorem claim_C6 (rid : Int) (upd : Fields) (t : StoredTable)
    (hne : ¬ upd = [])
    (hkey : (t.rows.map Prod.fst).Nodup) :
    ((update_record rid upd (some t)).1 = true ↔
      upd.all (fun p => p.1 = "id" || t.cols.contains p.1) = true ∧
        t.rows.countP (fun r => r.1 = rid) = 1) ∧
    (update_record rid upd none).1 = false := by
  refine ⟨?_, rfl⟩
  cases upd with
  | nil => exact absurd rfl hne
  | cons q ps =>
    rw [update_record_cons]
    by_cases hval : ((q :: ps).all (fun p => p.1 = "id" || t.cols.contains p.1)) = true
    · rw [if_pos hval]
      simp only [hval, true_and]
      exact any_id_iff_countP_one hkey
    · rw [if_neg hval]
      exact ⟨fun h => absurd h (by simp), fun hrh => absurd hrh.1 hval⟩

/-- Witness for C6: updating field `x` of record 1 in a two-record table
returns true, and the hypotheses hold at that input. -/
theorem claim_C6_witness :
    ¬ ([(("x" : String), ("cc" : String))] = []) ∧
      (([(1 : Int), 2] : List Int).Nodup) ∧
      ((update_record 1 [("x", "cc")]
          (some (StoredTable.mk ["name", "x"]
            [(1, [("name", "John"), ("x", "aa")]),
             (2, [("name", "Jane"), ("x", "bb")])]))).1 = true ↔
        ([(("x" : String), ("cc" : String))].all
            (fun p => p.1 = "id" || (["name", "x"] : List String).contains p.1) = true ∧
          ([((1 : Int), [(("name" : String), ("John" : String)), ("x", "aa")]),
            (2, [("name", "Jane"), ("x", "bb")])] : List (Int × Fields)).countP
              (fun r => r.1 = 1) = 1)) :=
  ⟨by simp, by simp,
   (claim_C6 1 [("x", "cc")]
     (StoredTable.mk ["name", "x"]
       [(1, [("name", "John"), ("x", "aa")]),
        (2, [("name", "Jane"), ("x", "bb")])])
     (by simp) (by simp)).1⟩

/-- C8: updating one column of one record changes nothing else: the table
keeps its columns and rows pairwise, every record whose identity differs
is unchanged, and within the targeted record every field whose key
differs from the updated column is unchanged. -/
theorem claim_C8 (t : StoredTable) (rid : Int) (c v : String)
    (_hex : rid ∈ t.rows.map Prod.fst) :
    ∃ t2, (update_record rid [(c, v)] (some t)).2 = some t2 ∧
      t2.cols = t.cols ∧
      List.Forall₂ (fun r r2 =>
        r2.1 = r.1 ∧ (¬ r.1 = rid → r2 = r) ∧
          List.Forall₂ (fun p q => q.1 = p.1 ∧ (¬ p.1 = c → q = p)) r.2 r2.2)
        t.rows t2.rows := by
  rw [update_record_cons]
  by_cases hval : (([(c, v)] : Fields).all
      (fun p => p.1 = "id" || t.cols.contains p.1)) = true
  · rw [if_pos hval]
    refine ⟨_, rfl, rfl, ?_⟩
    rw [List.forall₂_map_right_iff, List.forall₂_same]
    intro r hr
    by_cases hid : r.1 = rid
    · rw [if_pos hid]
      refine ⟨rfl, fun hc => absurd hid hc, ?_⟩
      unfold applyUpd
      rw [List.forall₂_map_right_iff, List.forall₂_same]
      intro p hp
      by_cases hpc : p.1 = c
      · have hl : ([(c, v)] : Fields).lookup p.1 = some v := by
          simp [List.lookup, hpc]
        rw [hl]
        exact ⟨rfl, fun hh => absurd hpc hh⟩
      · have hbe : (p.1 == c) = false := by simp [hpc]
        have hl : ([(c, v)] : Fields).lookup p.1 = none := by
          simp [List.lookup, hbe]
        rw [hl]
        exact ⟨rfl, fun _ => rfl⟩
    · rw [if_neg hid]
      exact ⟨rfl, fun _ => rfl,
        List.forall₂_same.mpr (fun p _ => ⟨rfl, fun _ => rfl⟩)⟩
  · rw [if_neg hval]
    exact ⟨t, rfl, rfl,
      List.forall₂_same.mpr
        (fun r _ => ⟨rfl, fun _ => rfl,
          List.forall₂_same.mpr (fun p _ => ⟨rfl, fun _ => rfl⟩)⟩)⟩

/-- Witness for C8: record 1 exists in the two-record table, and the
update of its `x` field satisfies the frame property. -/
theorem claim_C8_witness :
    (1 : Int) ∈ ([(1 : Int), 2] : List Int) ∧
      ∃ t2, (update_record 1 [("x", "cc")]
          (some (StoredTable.mk ["name", "x"]
            [(1, [("name", "John"), ("x", "aa")]),
             (2, [("name", "Jane"), ("x", "bb")])]))).2 = some t2 ∧
        t2.cols = ["name", "x"] ∧
        List.Forall₂ (fun r r2 =>
          r2.1 = r.1 ∧ (¬ r.1 = (1 : Int) → r2 = r) ∧
            List.Forall₂ (fun p q => q.1 = p.1 ∧ (¬ p.1 = "x" → q = p)) r.2 r2.2)
          [((1 : Int), [(("name" : String), ("John" : String)), ("x", "aa")]),
           (2, [("name", "Jane"), ("x", "bb")])] t2.rows :=
  ⟨by simp,
   claim_C8 (StoredTable.mk ["name", "x"]
     [(1, [("name", "John"), ("x", "aa")]),
      (2, [("name", "Jane"), ("x", "bb")])]) 1 "x" "cc" (by simp)⟩

/-- Witness for C4 on a two-record table: filtering `name = Jane` returns
exactly the second record. -/
theorem claim_C4_witness :
    "name" ∈ ["name", "x"] ∧
      fetch_records (some "name") (some "Jane")
          (some (StoredTable.mk ["name", "x"]
            [(1, [("name", "John"), ("x", "aa")]),
             (2, [("name", "Jane"), ("x", "bb")])]))
        = [(2, [("name", "Jane"), ("x", "bb")])] := by
  refine ⟨by simp, ?_⟩
  rw [(claim_C4 "name" "Jane"
    (StoredTable.mk ["name", "x"]
      [(1, [("name", "John"), ("x", "aa")]),
       (2, [("name", "Jane"), ("x", "bb")])])
    (by simp) (by simp) (by simp)).1 (by simp)]
  rfl

/-- C1 as stated is false: pandas dtype inference reformats numeric
field values before they are stored as text.  Uploading `a\n007` stores
and lists the field value `7`, not the source text `007`, although the
input's single data row is complete. -/
theorem claim_C1_cex :
    (upload_csv (strBytes "a\n007") none).map (fetch_records none none)
        = .ok [(1, [("a", "7")])] ∧
    parseGrid (String.mk ("a\n007".data)) = .ok (["a"], [["007"]]) ∧
    ¬ (("7" : String) = "007") := by
  refine ⟨rfl, rfl, ?_⟩
  simp

/-- C1 amended: for well-formed CSV content whose columns are all
inferred as text (no column consists solely of numeric, boolean or
NA-sentinel tokens), ingesting and then listing with no filter returns
one record per complete input row, in source order, with identities 1..N
and every field value unchanged as text. -/
theorem claim_C1 (b : List Nat) (cs : List Char) (hdr : List String)
    (rows : List (List String)) (f : Frame) (s : DBState)
    (hdec : utf8Decode b = some cs)
    (hgrid : parseGrid (String.mk cs) = .ok (hdr, rows))
    (hobj : ∀ d ∈ colDtypes hdr.length rows, d = Dtype.object)
    (hok : process_csv b = .ok f) :
    fetch_records none none (insert_csv_data f s)
      = (rows.filter (fun r => !r.any isNaTok)).enum.map
          (fun p => ((p.1 : Int) + 1, f.cols.zip p.2)) := by
  obtain ⟨hcols, hrows⟩ := process_frame_eq hdec hgrid hok
  have hlen : ∀ r ∈ rows, r.length = hdr.length := parseGrid_row_length hgrid
  have hmap : f.rows = (rows.filter (fun r => !r.any isNaTok)).map
      (fun r => r.map Cell.strC) := by
    rw [hrows]
    apply List.map_congr_left
    intro r hr
    obtain ⟨hrm, hpred⟩ := List.mem_filter.mp hr
    apply zipWith_object_str
    · exact hobj
    · simpa using hpred
    · rw [colDtypes_length]
      exact (hlen r hrm).symm
  rw [fetch_after_insert, hmap, ← List.map_enum, List.map_map]
  apply List.map_congr_left
  intro p _
  cases p with
  | mk i r =>
    simp only [Function.comp_apply, Prod.map, id_eq]
    rw [renderRow_str]

/-- Witness for C1 at the all-text upload `name,x / John,aa / Jane,bb`:
both rows round-trip unchanged with identities 1 and 2. -/
theorem claim_C1_witness :
    utf8Decode (strBytes "name,x\nJohn,aa\nJane,bb")
        = some ("name,x\nJohn,aa\nJane,bb".data) ∧
    parseGrid (String.mk ("name,x\nJohn,aa\nJane,bb".data))
        = .ok (["name", "x"], [["John", "aa"], ["Jane", "bb"]]) ∧
    (∀ d ∈ colDtypes (["name", "x"] : List String).length
        [["John", "aa"], ["Jane", "bb"]], d = Dtype.object) ∧
    process_csv (strBytes "name,x\nJohn,aa\nJane,bb")
        = .ok (Frame.mk ["name", "x"]
            [[Cell.strC "John", Cell.strC "aa"], [Cell.strC "Jane", Cell.strC "bb"]]) ∧
    fetch_records none none
        (insert_csv_data
          (Frame.mk ["name", "x"]
            [[Cell.strC "John", Cell.strC "aa"], [Cell.strC "Jane", Cell.strC "bb"]])
          none)
      = ([["John", "aa"], ["Jane", "bb"]].filter
            (fun r => !r.any isNaTok)).enum.map
          (fun p => ((p.1 : Int) + 1,
            (Frame.mk ["name", "x"]
              [[Cell.strC "John", Cell.strC "aa"],
               [Cell.strC "Jane", Cell.strC "bb"]]).cols.zip p.2)) :=
  ⟨rfl, rfl, by decide, rfl,
   claim_C1 (strBytes "name,x\nJohn,aa\nJane,bb")
     ("name,x\nJohn,aa\nJane,bb".data) ["name", "x"]
     [["John", "aa"], ["Jane", "bb"]]
     (Frame.mk ["name", "x"]
       [[Cell.strC "John", Cell.strC "aa"], [Cell.strC "Jane", Cell.strC "bb"]])
     none rfl rfl (by decide) rfl⟩

/-- C3 as stated is false: pandas also treats its NA sentinel tokens
(`NA`, `NULL`, `nan`, ...) as missing.  In `a,b / x,NA / y,z` the row
`x,NA` has no missing or empty field, yet it is dropped: the stored
result has one record while two input rows have no empty field. -/
theorem claim_C3_cex :
    parseGrid (String.mk ("a,b\nx,NA\ny,z".data))
        = .ok (["a", "b"], [["x", "NA"], ["y", "z"]]) ∧
    (["x", "NA"].all (fun tok => !(tok = ""))) = true ∧
    (([["x", "NA"], ["y", "z"]].filter
        (fun r => !r.any (fun tok => tok = ""))).length = 2) ∧
    (upload_csv (strBytes "a,b\nx,NA\ny,z") none).map (fetch_records none none)
        = .ok [(1, [("a", "y"), ("b", "z")])] := by
  exact ⟨rfl, by simp, by simp, rfl⟩

/-- C3 amended: a row is dropped exactly when some field is missing,
empty, or one of the pandas NA sentinel tokens; the normalized rows are
exactly the images of the sentinel-free input rows, and the stored row
count equals the number of such rows. -/
theorem claim_C3 (b : List Nat) (cs : List Char) (hdr : List String)
    (rows : List (List String)) (f : Frame)
    (hdec : utf8Decode b = some cs)
    (hgrid : parseGrid (String.mk cs) = .ok (hdr, rows))
    (hok : process_csv b = .ok f) :
    f.rows = (rows.filter (fun r => !r.any isNaTok)).map
        (fun r => List.zipWith mkCell (colDtypes hdr.length rows) r) ∧
    f.rows.length = (rows.filter (fun r => !r.any isNaTok)).length ∧
    ∀ s, (fetch_records none none (insert_csv_data f s)).length
        = (rows.filter (fun r => !r.any isNaTok)).length := by
  obtain ⟨hcols, hrows⟩ := process_frame_eq hdec hgrid hok
  refine ⟨hrows, by rw [hrows, List.length_map], ?_⟩
  intro s
  rw [fetch_after_insert, List.length_map, List.enum_length, hrows,
    List.length_map]

/-- Witness for C3 at `a,b / x, / y,z`: the row with the empty field is
dropped and exactly one record is stored. -/
theorem claim_C3_witness :
    utf8Decode (strBytes "a,b\nx,\ny,z") = some ("a,b\nx,\ny,z".data) ∧
    parseGrid (String.mk ("a,b\nx,\ny,z".data))
        = .ok (["a", "b"], [["x", ""], ["y", "z"]]) ∧
    process_csv (strBytes "a,b\nx,\ny,z")
        = .ok (Frame.mk ["a", "b"] [[Cell.strC "y", Cell.strC "z"]]) ∧
    (fetch_records none none
        (insert_csv_data (Frame.mk ["a", "b"] [[Cell.strC "y", Cell.strC "z"]])
          none)).length
      = (([["x", ""], ["y", "z"]] : List (List String)).filter
          (fun r => !r.any isNaTok)).length :=
  ⟨rfl, rfl, rfl,
   (claim_C3 (strBytes "a,b\nx,\ny,z") ("a,b\nx,\ny,z".data) ["a", "b"]
     [["x", ""], ["y", "z"]]
     (Frame.mk ["a", "b"] [[Cell.strC "y", Cell.strC "z"]])
     rfl rfl rfl).2.2 none⟩

end CsvApp
